import Mathlib

/-!
Verification of the RAR ITP checker pipeline (`custom_components/rar_itp_checker`).

The development shallowly embeds the pure content of `sensor.py` and
`captcha_solver.py`:

* Python strings are modelled as `List Char` (`Str`), with the Python
  operations (`in`, `split`, `strip`, `zfill`, `lower`,
  `re.sub(r"\D", ...)`, `re.match(r"^\d{4,6}$", ...)`) written as
  structural-recursion Lean functions so that every definition evaluates
  inside the kernel.  The regex class `\d` and `str.lower` are modelled at
  ASCII precision (all codes and needles involved are ASCII or lowercase
  Romanian); `str.strip()` uses `Char.isWhitespace`.
* An HTML result page is modelled as the list of its text-node contents in
  document order (`List String`): `get_text(separator="\n", strip=True)` is
  the newline join of the trimmed non-empty nodes, `soup.find(text=...)` is
  the first node whose raw text contains the needle, and
  `node.find_next().get_text(strip=True)` is the trimmed following node.
* The network is an oracle: each outer attempt of `fetch_itp` consumes one
  `AttemptEnv` describing what the portal and the OCR backend answer during
  that attempt; the code's control flow over those answers is reproduced
  exactly, together with a `Counts` record tallying landing-page GETs,
  CAPTCHA-image GETs, OCR-backend calls and form POSTs.
* Exceptions become `Except` values carrying the raised message strings.
-/

/-! ## Python string primitives over `List Char` -/

/-- Python strings, modelled as their character lists. -/
abbrev Str := List Char

/-- Fuel-driven scanner behind `containsList`; fuel bounds the scan position. -/
def containsFuel (pat : Str) : Nat → Str → Bool
  | 0, s => pat.isPrefixOf s
  | fuel + 1, s =>
    if pat.isPrefixOf s then true
    else
      match s with
      | [] => false
      | _ :: t => containsFuel pat fuel t

/-- Python `pat in s` (substring containment) for a non-empty `pat`. -/
def containsList (s pat : Str) : Bool :=
  containsFuel pat s.length s

/-- Fuel-driven scanner behind `splitOnList`. -/
def splitOnFuel (pat : Str) : Nat → Str → Str → List Str
  | 0, s, acc => [acc.reverse ++ s]
  | fuel + 1, s, acc =>
    match s with
    | [] => [acc.reverse]
    | c :: t =>
      if pat.isPrefixOf s then
        acc.reverse :: splitOnFuel pat fuel (s.drop pat.length) []
      else
        splitOnFuel pat fuel t (c :: acc)

/-- Python `s.split(pat)` for a non-empty separator `pat`: the pieces between
the non-overlapping left-to-right occurrences of `pat`. -/
def splitOnList (s pat : Str) : List Str :=
  splitOnFuel pat s.length s []

/-- Python `s.split(pat, 1)[1]`: everything after the first occurrence of
`pat` (meaningful only under a `pat in s` guard, as in the source). -/
def splitRemainder (s pat : Str) : Str :=
  List.intercalate pat ((splitOnList s pat).drop 1)

/-- Splitter behind `pySplitWs`. -/
def splitWsGo : Str → Str → List Str
  | [], acc => [acc.reverse]
  | c :: t, acc =>
    if c.isWhitespace then acc.reverse :: splitWsGo t []
    else splitWsGo t (c :: acc)

/-- Python `s.split()` with no arguments: split on whitespace runs, dropping
empty pieces. -/
def pySplitWs (s : Str) : List Str :=
  (splitWsGo s []).filter (fun t => !t.isEmpty)

/-- Python `s.strip()`: drop leading and trailing whitespace. -/
def pyStrip (s : Str) : Str :=
  ((s.dropWhile Char.isWhitespace).reverse.dropWhile Char.isWhitespace).reverse

/-- Python `s.strip(".")`: remove leading and trailing `'.'` characters. -/
def stripDots (s : Str) : Str :=
  ((s.dropWhile (· == '.')).reverse.dropWhile (· == '.')).reverse

/-- Python `s.zfill(width)`: left-pad with `'0'` to `width`, keeping a leading
sign in front of the padding. -/
def pyZfill (width : Nat) (s : Str) : Str :=
  if width ≤ s.length then s
  else
    match s with
    | c :: rest =>
      if c == '+' || c == '-' then
        c :: (List.replicate (width - s.length) '0' ++ rest)
      else
        List.replicate (width - s.length) '0' ++ s
    | [] => List.replicate width '0'

/-- Python `s.lower()` at ASCII precision. -/
def pyLower (s : Str) : Str :=
  s.map Char.toLower

/-- Python `re.sub(r"\D", "", s)` (sensor.py line 126): keep only digits. -/
def sanitizeDigits (s : Str) : Str :=
  s.filter Char.isDigit

/-- Python `bool(re.match(r"^\d{4,6}$", s))` for a string without trailing
newline: `s` consists of 4 to 6 decimal digits. -/
def re_match_d46 (s : Str) : Bool :=
  decide (4 ≤ s.length) && decide (s.length ≤ 6) && s.all Char.isDigit

/-! ## Result parsing (`fetch_itp`, sensor.py lines 175-218) -/

/-- `MONTH_MAP` (sensor.py lines 22-35): Romanian month abbreviations to
two-digit month numbers. -/
def MONTH_MAP : List (String × String) :=
  [("ian", "01"), ("feb", "02"), ("mar", "03"), ("apr", "04"),
   ("mai", "05"), ("iun", "06"), ("iul", "07"), ("aug", "08"),
   ("sept", "09"), ("oct", "10"), ("nov", "11"), ("dec", "12")]

/-- `MONTH_MAP.get(month)` without default: the table lookup itself. -/
def lookupMonth (m : Str) : Option Str :=
  (MONTH_MAP.find? (fun p => p.1 == String.mk m)).map (fun p => p.2.toList)

/-- Python `MONTH_MAP.get(month, "01")` (sensor.py line 197). -/
def monthGet (m : Str) : Str :=
  (lookupMonth m).getD "01".toList

/-- `result_div.get_text(separator="\n", strip=True)` on the modelled node
list: newline join of the trimmed, non-empty text nodes. -/
def contentText (nodes : List String) : Str :=
  List.intercalate "\n".toList
    ((nodes.map (fun n => pyStrip n.toList)).filter (fun t => !t.isEmpty))

/-- The record built at sensor.py lines 213-218 — exactly the four keys of the
returned dict. -/
structure ItpRecord where
  vin : String
  status : String
  expiration_date : String
  last_checked : String
deriving DecidableEq, Repr

/-- Current-format expiration parsing (sensor.py lines 192-200): take the text
after `"valabilă până la"`, its first whitespace token, strip dots, split on
`"-"` into day-month-year, map the month through `MONTH_MAP` with default
`"01"`, zero-pad the day.  Any shape mismatch (the Python `except`) leaves the
date `"Unknown"`. -/
def parseNewFormat (lower : Str) : String :=
  match pySplitWs (splitRemainder lower "valabilă până la".toList) with
  | [] => "Unknown"
  | tok :: _ =>
    match splitOnList (stripDots (pyStrip tok)) "-".toList with
    | [day, month, year] =>
      String.mk (year ++ "-".toList ++ monthGet month ++ "-".toList ++ pyZfill 2 day)
    | _ => "Unknown"

/-- Legacy-format expiration parsing (sensor.py lines 202-211): find the text
node containing the case-sensitive label `"Data expirării"`, take the next
node's trimmed text, split on `"."` into day-month-year and reassemble.  A
missing node or wrong shape leaves the date `"Unknown"`. -/
def parseOldFormat (nodes : List String) : String :=
  match nodes.findIdx? (fun n => containsList n.toList "Data expirării".toList) with
  | none => "Unknown"
  | some i =>
    match nodes.get? (i + 1) with
    | none => "Unknown"
    | some nxt =>
      match splitOnList (pyStrip nxt.toList) ".".toList with
      | [day, month, year] =>
        String.mk (year ++ "-".toList ++ month ++ "-".toList ++ day)
      | _ => "Unknown"

/-- The expiration-date branch of the parser: current format first, then the
legacy labelled field, else `"Unknown"` (the `if` / `elif` at sensor.py
lines 192 and 202). -/
def parseExpiration (lower : Str) (nodes : List String) : String :=
  if containsList lower "valabilă până la".toList then parseNewFormat lower
  else if containsList lower "data expirării".toList then parseOldFormat nodes
  else "Unknown"

/-- The result classification and record construction of `fetch_itp`
(sensor.py lines 183-218): if the lowered text contains the no-record phrase
the defaults `"Not Found"` / `"Unknown"` stand; otherwise the status is
`"Valid"` and the two date strategies run in order. -/
def parseResult (vin now : String) (nodes : List String) : ItpRecord :=
  if containsList (pyLower (contentText nodes)) "nu a fost găsită nicio înregistrare".toList then
    ⟨vin, "Not Found", "Unknown", now⟩
  else
    ⟨vin, "Valid", parseExpiration (pyLower (contentText nodes)) nodes, now⟩

/-! ## CAPTCHA solvers -/

/-- The OCR backend's answer to one request, as seen by
`solve_captcha_with_ocrspace` (sensor.py lines 42-80). -/
inductive OcrResp where
  /-- `aiohttp.ClientError` / `asyncio.TimeoutError` while posting. -/
  | netFail : OcrResp
  /-- response content type is not `application/json`. -/
  | nonJson : OcrResp
  /-- HTTP status other than 200, with the payload's `ErrorMessage`. -/
  | httpError (msg : String) : OcrResp
  /-- a 200 JSON response; `text` is `ParsedResults[0].ParsedText`. -/
  | parsed (text : String) : OcrResp
deriving DecidableEq, Repr

/-- The `OCRAPIError` exception: its message and, when raised `from` another
exception, that cause's message. -/
structure OCRAPIError where
  msg : String
  cause : Option String
deriving DecidableEq, Repr

/-- The inner body of `solve_captcha_with_ocrspace` (sensor.py lines 52-76):
classify the backend response, strip the parsed text and accept it only when
it is 4-6 digits, else raise `OCRAPIError` with the shown message. -/
def ocrInner : OcrResp → Except String Str
  | .netFail => .error "API request failed"
  | .nonJson => .error "Non-JSON response from OCR API"
  | .httpError m => .error ("OCR API error: " ++ m)
  | .parsed t =>
    let result := pyStrip t.toList
    if !result.isEmpty && re_match_d46 result then .ok result
    else .error "Invalid CAPTCHA format"

/-- `solve_captcha_with_ocrspace` (sensor.py lines 42-80): the outer
`except Exception` re-raises every failure as
`OCRAPIError("OCR processing failed")` chained from the inner error; a
validated code passes through. -/
def solve_captcha_with_ocrspace (resp : OcrResp) : Except OCRAPIError Str :=
  match ocrInner resp with
  | .ok t => .ok t
  | .error m => .error ⟨"OCR processing failed", some m⟩

/-- `solve_captcha_image` (captcha_solver.py lines 14-19), modelled at its
textual interface: `engineOutput` is what `pytesseract.image_to_string`
returns for the (preprocessed) image, and the function strips it — there is
no format validation and no failure channel. -/
def solve_captcha_image (engineOutput : String) : Str :=
  pyStrip engineOutput.toList

/-! ## The fetch orchestration (`fetch_itp`, sensor.py lines 83-225, and
`async_update_data`, sensor.py lines 332-342) -/

/-- What the portal answers to the form POST of one attempt. -/
inductive PostEnv where
  /-- `asyncio.TimeoutError` while submitting. -/
  | timeout : PostEnv
  /-- HTTP success; the result page, as its text nodes. -/
  | ok (nodes : List String) : PostEnv
deriving Repr

/-- The environment of one outer attempt: what the network does at each of
its sequential steps. -/
inductive AttemptEnv where
  /-- `asyncio.TimeoutError` on the landing-page GET. -/
  | landingTimeout : AttemptEnv
  /-- landing page loaded but has no `img#imgVerf` with a `src`. -/
  | noCaptcha : AttemptEnv
  /-- `asyncio.TimeoutError` downloading the CAPTCHA image. -/
  | imgTimeout : AttemptEnv
  /-- CAPTCHA image downloaded; the OCR backend answers `ocr`; if the solve
  succeeds, the POST behaves as `post`. -/
  | img (ocr : OcrResp) (post : PostEnv) : AttemptEnv
deriving Repr

/-- Network-call tally of a (partial) run: landing-page GETs, CAPTCHA-image
GETs, OCR-backend calls, form POSTs.  A call is counted when it is issued,
whether or not it times out. -/
structure Counts where
  landingGets : Nat
  captchaGets : Nat
  ocrCalls : Nat
  formPosts : Nat
deriving DecidableEq, Repr

def Counts.add (a b : Counts) : Counts :=
  ⟨a.landingGets + b.landingGets, a.captchaGets + b.captchaGets,
   a.ocrCalls + b.ocrCalls, a.formPosts + b.formPosts⟩

instance : Add Counts := ⟨Counts.add⟩

@[simp] theorem Counts.add_landingGets (a b : Counts) :
    (a + b).landingGets = a.landingGets + b.landingGets := rfl

@[simp] theorem Counts.add_captchaGets (a b : Counts) :
    (a + b).captchaGets = a.captchaGets + b.captchaGets := rfl

@[simp] theorem Counts.add_ocrCalls (a b : Counts) :
    (a + b).ocrCalls = a.ocrCalls + b.ocrCalls := rfl

@[simp] theorem Counts.add_formPosts (a b : Counts) :
    (a + b).formPosts = a.formPosts + b.formPosts := rfl

/-- `form_data` (sensor.py lines 127-134): the submitted form fields. -/
def form_data (vin : String) (captcha_text : Str) : List (String × String) :=
  [("serie_civ", ""), ("nr_id", String.mk (vin.toList.map Char.toUpper)),
   ("verif_cod", String.mk (sanitizeDigits captcha_text)),
   ("trimite", "Caută"), ("from_url", ""), ("id", "")]

/-- Dict lookup on the modelled form data. -/
def formField (fd : List (String × String)) (k : String) : Option String :=
  (fd.find? (fun p => p.1 == k)).map (fun p => p.2)

/-- How one outer-loop iteration ends, before the `attempt == 2` tests. -/
inductive AttemptRes where
  /-- `break` or an exception that escapes the loop: the final outcome. -/
  | done (r : Except String ItpRecord) : AttemptRes
  /-- the iteration failed and control reaches a retry point; `finalErr` is
  the `UpdateFailed` message raised instead when this is the last attempt. -/
  | retry (finalErr : String) : AttemptRes
deriving Repr

/-- One iteration of the `for attempt in range(3)` loop of `fetch_itp`
(sensor.py lines 92-173) together with the parse-and-return tail
(lines 175-218), and the network calls it makes:

* a landing-page timeout, image timeout or POST timeout raises `UpdateFailed`,
  caught at line 168 → retry (re-raised verbatim on the last attempt);
* a missing CAPTCHA image raises `ValueError`, which escapes the loop and is
  wrapped at line 225 into `UpdateFailed("ITP check failed: ...")`;
* an `OCRAPIError` → retry, with `"Failed to solve CAPTCHA after 3 attempts"`
  on the last attempt (line 123);
* a result page containing the rejection phrase → retry, with
  `"CAPTCHA validation failed after 3 attempts"` on the last attempt (line 163);
* otherwise `break` and the parsed record is returned. -/
def stepAttempt (vin now : String) (env : AttemptEnv) : AttemptRes × Counts :=
  match env with
  | .landingTimeout => (.retry "Timeout connecting to RAR website", ⟨1, 0, 0, 0⟩)
  | .noCaptcha => (.done (.error "ITP check failed: CAPTCHA image not found"), ⟨1, 0, 0, 0⟩)
  | .imgTimeout => (.retry "Timeout downloading CAPTCHA image", ⟨1, 1, 0, 0⟩)
  | .img ocr post =>
    match solve_captcha_with_ocrspace ocr with
    | .error _ => (.retry "Failed to solve CAPTCHA after 3 attempts", ⟨1, 1, 1, 0⟩)
    | .ok _ =>
      match post with
      | .timeout => (.retry "Timeout submitting form to RAR website", ⟨1, 1, 1, 1⟩)
      | .ok nodes =>
        if containsList (pyLower (contentText nodes))
            "codul de verificare a fost copiat incorect".toList then
          (.retry "CAPTCHA validation failed after 3 attempts", ⟨1, 1, 1, 1⟩)
        else
          (.done (.ok (parseResult vin now nodes)), ⟨1, 1, 1, 1⟩)

/-- `fetch_itp` (sensor.py lines 83-225) over an attempt-indexed environment:
the `for attempt in range(3)` loop, where every retry point checks
`attempt == 2` and raises its terminal message on the last attempt.  Returns
the outcome and the total network-call counts. -/
def fetch_itp (vin now : String) (envs : Nat → AttemptEnv) :
    Except String ItpRecord × Counts :=
  match stepAttempt vin now (envs 0) with
  | (.done r, c0) => (r, c0)
  | (.retry _, c0) =>
    match stepAttempt vin now (envs 1) with
    | (.done r, c1) => (r, c0 + c1)
    | (.retry _, c1) =>
      match stepAttempt vin now (envs 2) with
      | (.done r, c2) => (r, c0 + c1 + c2)
      | (.retry e, c2) => (.error e, c0 + c1 + c2)

/-- `async_update_data` (sensor.py lines 332-342): the caller-side wrapper
that retries the whole `fetch_itp` up to 3 times on `UpdateFailed`,
re-raising the last failure.  `worlds i` is the attempt environment seen by
the `i`-th `fetch_itp` call. -/
def async_update_data (vin now : String) (worlds : Nat → Nat → AttemptEnv) :
    Except String ItpRecord × Counts :=
  match fetch_itp vin now (worlds 0) with
  | (.ok r, c0) => (.ok r, c0)
  | (.error _, c0) =>
    match fetch_itp vin now (worlds 1) with
    | (.ok r, c1) => (.ok r, c0 + c1)
    | (.error _, c1) =>
      match fetch_itp vin now (worlds 2) with
      | (r2, c2) => (r2, c0 + c1 + c2)

/-! ## `calculate_days_until` (sensor.py lines 228-236) -/

/-- Digit list to number, most significant first. -/
def digitsToNat (s : Str) : Nat :=
  s.foldl (fun n c => n * 10 + (c.toNat - 48)) 0

/-- A non-empty all-digit string. -/
def isDigitStr (s : Str) : Bool :=
  !s.isEmpty && s.all Char.isDigit

def isLeap (y : Nat) : Bool :=
  y % 4 == 0 && (y % 100 != 0 || y % 400 == 0)

def daysInMonth (y m : Nat) : Nat :=
  if m == 2 then (if isLeap y then 29 else 28)
  else if m == 4 || m == 6 || m == 9 || m == 11 then 30
  else 31

/-- `datetime.strptime(s, "%Y-%m-%d").date()`: exactly 4 digits of year with
year at least `datetime.MINYEAR = 1` (`MAXYEAR = 9999` is automatic from the
4-digit match), 1-2 digits of month in 1..12, 1-2 digits of day valid for
that month and year; anything else raises `ValueError`, modelled as
`none`. -/
def parseYmd (s : String) : Option (Nat × Nat × Nat) :=
  match splitOnList s.toList "-".toList with
  | [ys, ms, ds] =>
    if ys.length == 4 && isDigitStr ys && isDigitStr ms && decide (ms.length ≤ 2)
        && isDigitStr ds && decide (ds.length ≤ 2) then
      let y := digitsToNat ys
      let m := digitsToNat ms
      let d := digitsToNat ds
      if 1 ≤ y ∧ 1 ≤ m ∧ m ≤ 12 ∧ 1 ≤ d ∧ d ≤ daysInMonth y m then some (y, m, d)
      else none
    else none
  | _ => none

/-- Proleptic-Gregorian day number of a civil date (the standard
days-from-civil computation); differences of these model
`(exp - date.today()).days`. -/
def daysFromCivil (y m d : Nat) : Int :=
  let yy : Int := if m ≤ 2 then (y : Int) - 1 else (y : Int)
  let era : Int := (if 0 ≤ yy then yy else yy - 399) / 400
  let yoe : Int := yy - era * 400
  let mp : Int := ((m : Int) + 9) % 12
  let doy : Int := (153 * mp + 2) / 5 + (d : Int) - 1
  let doe : Int := yoe * 365 + yoe / 4 - yoe / 100 + doy
  era * 146097 + doe - 719468

/-- `calculate_days_until` (sensor.py lines 228-236): `None` for an empty or
`"Unknown"` date and for any string `strptime` rejects; otherwise the signed
day difference to today (given as its day number). -/
def calculate_days_until (expiration_date : String) (todayOrd : Int) : Option Int :=
  if expiration_date.isEmpty || expiration_date == "Unknown" then none
  else
    match parseYmd expiration_date with
    | none => none
    | some (y, m, d) => some (daysFromCivil y m d - todayOrd)

deriving instance DecidableEq for Except

/-! ## Parser claims -/

/-- C5: for every submission-result fragment whose lowercased text contains
the no-record phrase "nu a fost găsită nicio înregistrare", the parser
returns status `"Not Found"` with no expiration date (the `"Unknown"`
sentinel), regardless of any date-shaped text elsewhere in the fragment. -/
theorem C5_no_record_phrase (vin now : String) (nodes : List String)
    (h : containsList (pyLower (contentText nodes))
      "nu a fost găsită nicio înregistrare".toList = true) :
    parseResult vin now nodes = ⟨vin, "Not Found", "Unknown", now⟩ := by
  simp at h
  simp [parseResult, h]

/-- Witness for C5 at a concrete fragment that also carries a date-shaped
current-format phrase. -/
theorem C5_witness :
    parseResult "WAUZZZ8K79A000000" "2026-01-01 00:00:00"
      ["Nu a fost găsită nicio înregistrare", "valabilă până la 5-mar-2026"]
      = ⟨"WAUZZZ8K79A000000", "Not Found", "Unknown", "2026-01-01 00:00:00"⟩ :=
  C5_no_record_phrase _ _ _ (by decide)

/-- C6: for every Valid-classified fragment containing the current-format
phrase "valabilă până la" followed by a `D-MMM-YYYY` token whose month
abbreviation is in `MONTH_MAP`, the parser yields the date reassembled as
`YYYY-MM-DD` with the day zero-padded to two digits and the month taken from
the table. -/
theorem C6_current_format (vin now : String) (nodes : List String)
    (tok : Str) (rest : List Str) (day month year mm : Str)
    (h1 : containsList (pyLower (contentText nodes))
      "nu a fost găsită nicio înregistrare".toList = false)
    (h2 : containsList (pyLower (contentText nodes)) "valabilă până la".toList = true)
    (h3 : pySplitWs (splitRemainder (pyLower (contentText nodes))
      "valabilă până la".toList) = tok :: rest)
    (h4 : splitOnList (stripDots (pyStrip tok)) "-".toList = [day, month, year])
    (h5 : lookupMonth month = some mm) :
    parseResult vin now nodes =
      ⟨vin, "Valid",
        String.mk (year ++ "-".toList ++ mm ++ "-".toList ++ pyZfill 2 day), now⟩ := by
  simp at h1 h2 h3 h4
  simp [parseResult, h1, parseExpiration, h2, parseNewFormat, h3, h4, monthGet, h5]

/-- Witness for C6: `"valabilă până la 5-mar-2026."` parses to `"2026-03-05"`. -/
theorem C6_witness :
    parseResult "WAUZZZ8K79A000000" "2026-01-01 00:00:00"
      ["ITP valabilă până la 5-mar-2026."]
      = ⟨"WAUZZZ8K79A000000", "Valid", "2026-03-05", "2026-01-01 00:00:00"⟩ :=
  (C6_current_format _ _ _ "5-mar-2026.".toList [] "5".toList "mar".toList
    "2026".toList "03".toList (by decide) (by decide) (by decide) (by decide)
    (by decide)).trans (by decide)

/-- C7: for every Valid-classified fragment without the current-format phrase
but with the legacy label "Data expirării" followed by a `DD.MM.YYYY` token,
the parser yields the token reassembled as `YYYY-MM-DD`; the legacy strategy
only runs when the current-format one does not match (the `elif`). -/
theorem C7_legacy_format (vin now : String) (nodes : List String)
    (i : Nat) (nxt : String) (day month year : Str)
    (h1 : containsList (pyLower (contentText nodes))
      "nu a fost găsită nicio înregistrare".toList = false)
    (h2 : containsList (pyLower (contentText nodes)) "valabilă până la".toList = false)
    (h3 : containsList (pyLower (contentText nodes)) "data expirării".toList = true)
    (h4 : nodes.findIdx? (fun n => containsList n.toList "Data expirării".toList) = some i)
    (h5 : nodes.get? (i + 1) = some nxt)
    (h6 : splitOnList (pyStrip nxt.toList) ".".toList = [day, month, year]) :
    parseResult vin now nodes =
      ⟨vin, "Valid",
        String.mk (year ++ "-".toList ++ month ++ "-".toList ++ day), now⟩ := by
  simp at h1 h2 h3 h4 h5 h6
  simp [parseResult, h1, parseExpiration, h2, h3, parseOldFormat, h4, h5, h6]

/-- Witness for C7: `"Data expirării"` followed by `"05.03.2026"` parses to
`"2026-03-05"`. -/
theorem C7_witness :
    parseResult "WAUZZZ8K79A000000" "2026-01-01 00:00:00"
      ["Rezultat", "Data expirării", "05.03.2026"]
      = ⟨"WAUZZZ8K79A000000", "Valid", "2026-03-05", "2026-01-01 00:00:00"⟩ :=
  (C7_legacy_format _ _ _ 1 "05.03.2026" "05".toList "03".toList "2026".toList
    (by decide) (by decide) (by decide) (by decide) (by decide) (by decide)).trans
    (by decide)

/-- C8: in current-format parsing, a month abbreviation outside the 12-entry
table defaults the month to `"01"` instead of failing: the record still has
status `"Valid"` and an expiration date assembled as `YYYY-01-DD`. -/
theorem C8_unknown_month_defaults (vin now : String) (nodes : List String)
    (tok : Str) (rest : List Str) (day month year : Str)
    (h1 : containsList (pyLower (contentText nodes))
      "nu a fost găsită nicio înregistrare".toList = false)
    (h2 : containsList (pyLower (contentText nodes)) "valabilă până la".toList = true)
    (h3 : pySplitWs (splitRemainder (pyLower (contentText nodes))
      "valabilă până la".toList) = tok :: rest)
    (h4 : splitOnList (stripDots (pyStrip tok)) "-".toList = [day, month, year])
    (h5 : lookupMonth month = none) :
    parseResult vin now nodes =
      ⟨vin, "Valid",
        String.mk (year ++ "-".toList ++ "01".toList ++ "-".toList ++ pyZfill 2 day),
        now⟩ := by
  simp at h1 h2 h3 h4
  simp [parseResult, h1, parseExpiration, h2, parseNewFormat, h3, h4, monthGet, h5]

/-- Witness for C8: the unrecognized abbreviation `"xyz"` gives month `"01"`. -/
theorem C8_witness :
    parseResult "WAUZZZ8K79A000000" "2026-01-01 00:00:00"
      ["valabilă până la 5-xyz-2026"]
      = ⟨"WAUZZZ8K79A000000", "Valid", "2026-01-05", "2026-01-01 00:00:00"⟩ :=
  (C8_unknown_month_defaults _ _ _ "5-xyz-2026".toList [] "5".toList "xyz".toList
    "2026".toList (by decide) (by decide) (by decide) (by decide) (by decide)).trans
    (by decide)


/-! ## Attempt-count bookkeeping -/

/-- Every outer-loop iteration makes at most one landing GET, and the calls
are nested: a form POST needs a solved code, a solve needs a downloaded
image, an image needs a landing page. -/
theorem stepAttempt_bounds (vin now : String) (env : AttemptEnv) :
    (stepAttempt vin now env).2.ocrCalls ≤ (stepAttempt vin now env).2.captchaGets
    ∧ (stepAttempt vin now env).2.captchaGets ≤ (stepAttempt vin now env).2.landingGets
    ∧ (stepAttempt vin now env).2.landingGets ≤ 1
    ∧ (stepAttempt vin now env).2.formPosts ≤ (stepAttempt vin now env).2.ocrCalls := by
  cases env with
  | landingTimeout => simp [stepAttempt]
  | noCaptcha => simp [stepAttempt]
  | imgTimeout => simp [stepAttempt]
  | img ocr post =>
    rcases hS : solve_captcha_with_ocrspace ocr with e | t
    · simp [stepAttempt, hS]
    · cases post with
      | timeout => simp [stepAttempt, hS]
      | ok nodes =>
        simp only [stepAttempt, hS]
        split <;> simp

/-- `fetch_itp` makes at most 3 attempts, hence at most 3 of each call kind,
with the same nesting as the single attempt. -/
theorem fetch_itp_bounds (vin now : String) (envs : Nat → AttemptEnv) :
    (fetch_itp vin now envs).2.ocrCalls ≤ (fetch_itp vin now envs).2.captchaGets
    ∧ (fetch_itp vin now envs).2.captchaGets ≤ (fetch_itp vin now envs).2.landingGets
    ∧ (fetch_itp vin now envs).2.landingGets ≤ 3
    ∧ (fetch_itp vin now envs).2.formPosts ≤ 3
    ∧ (fetch_itp vin now envs).2.ocrCalls ≤ 3 := by
  have b0 := stepAttempt_bounds vin now (envs 0)
  have b1 := stepAttempt_bounds vin now (envs 1)
  have b2 := stepAttempt_bounds vin now (envs 2)
  unfold fetch_itp
  rcases h0 : stepAttempt vin now (envs 0) with ⟨r0, c0⟩
  rw [h0] at b0
  simp only [Prod.snd] at b0
  cases r0 with
  | done r => simp; omega
  | retry e0 =>
    rcases h1 : stepAttempt vin now (envs 1) with ⟨r1, c1⟩
    rw [h1] at b1
    simp only [Prod.snd] at b1
    cases r1 with
    | done r => simp; omega
    | retry e1 =>
      rcases h2 : stepAttempt vin now (envs 2) with ⟨r2, c2⟩
      rw [h2] at b2
      simp only [Prod.snd] at b2
      cases r2 with
      | done r => simp; omega
      | retry e2 => simp; omega

/-! ## Retry-budget claims -/

/-- C1 counterexample: with the OCR backend answering the non-digit text
`"12a45"` on every call, one invocation of the inbound lookup
(`async_update_data`) performs 9 landing-page GETs — the caller-side wrapper
retries the whole 3-attempt `fetch_itp` three times — refuting the claimed
bound of at most 3 outer attempts and 3 portal round-trips counted across
all retry levels. -/
theorem C1_counterexample :
    (async_update_data "WAUZZZ8K79A000000" "2026-01-01 00:00:00"
        (fun _ _ => .img (.parsed "12a45") .timeout)).2
      = ⟨9, 9, 9, 0⟩
    ∧ ¬ ((async_update_data "WAUZZZ8K79A000000" "2026-01-01 00:00:00"
        (fun _ _ => .img (.parsed "12a45") .timeout)).2.landingGets ≤ 3) := by
  decide

/-- C1 (amended): one invocation of the inbound lookup performs at most
9 outer attempts in total — the caller-side wrapper retries the 3-attempt
`fetch_itp` up to 3 times — hence at most 9 landing-page GETs, 9 CAPTCHA
downloads, 9 OCR-backend calls (the claimed 3 × 3 = 9 bound on OCR calls
does hold) and 9 form POSTs; a single `fetch_itp` call alone stays within
3 of each. -/
theorem C1_attempt_budget (vin now : String) (worlds : Nat → Nat → AttemptEnv) :
    (async_update_data vin now worlds).2.landingGets ≤ 9
    ∧ (async_update_data vin now worlds).2.captchaGets ≤ 9
    ∧ (async_update_data vin now worlds).2.ocrCalls ≤ 9
    ∧ (async_update_data vin now worlds).2.formPosts ≤ 9
    ∧ (fetch_itp vin now (worlds 0)).2.landingGets ≤ 3
    ∧ (fetch_itp vin now (worlds 0)).2.ocrCalls ≤ 3 := by
  have b0 := fetch_itp_bounds vin now (worlds 0)
  have b1 := fetch_itp_bounds vin now (worlds 1)
  have b2 := fetch_itp_bounds vin now (worlds 2)
  unfold async_update_data
  rcases h0 : fetch_itp vin now (worlds 0) with ⟨r0, c0⟩
  rw [h0] at b0
  simp only [Prod.snd] at b0
  cases r0 with
  | ok r => simp; omega
  | error e0 =>
    rcases h1 : fetch_itp vin now (worlds 1) with ⟨r1, c1⟩
    rw [h1] at b1
    simp only [Prod.snd] at b1
    cases r1 with
    | ok r => simp; omega
    | error e1 =>
      rcases h2 : fetch_itp vin now (worlds 2) with ⟨r2, c2⟩
      rw [h2] at b2
      simp only [Prod.snd] at b2
      simp [h2]
      omega

/-- C2 counterexample: in a single `fetch_itp` call whose first two OCR
answers fail format validation and whose third solves, the code downloads a
fresh CAPTCHA image (and re-loads the landing page) for every OCR call —
counts `⟨3, 3, 3, 1⟩` — whereas the claim requires the solver retries to
reuse the one already-downloaded image (1 download for up to 3 OCR calls). -/
theorem C2_counterexample :
    (fetch_itp "WAUZZZ8K79A000000" "2026-01-01 00:00:00"
        (fun i => if i < 2 then .img (.parsed "12a45") (.ok [])
          else .img (.parsed "1234") (.ok ["ITP valabilă până la 5-mar-2026"]))).2
      = ⟨3, 3, 3, 1⟩
    ∧ ¬ ((fetch_itp "WAUZZZ8K79A000000" "2026-01-01 00:00:00"
        (fun i => if i < 2 then .img (.parsed "12a45") (.ok [])
          else .img (.parsed "1234") (.ok ["ITP valabilă până la 5-mar-2026"]))).2.captchaGets
        = 1) := by
  decide

/-- C2 (amended): a CAPTCHA-solver failure ends the outer attempt — there is
no inner same-image retry loop — so OCR is invoked at most once per
downloaded challenge image and per landing-page load: within one `fetch_itp`
call the OCR calls never exceed the image downloads, the image downloads
never exceed the landing-page loads, and there are at most 3 of each. -/
theorem C2_fresh_image_per_ocr (vin now : String) (envs : Nat → AttemptEnv) :
    (fetch_itp vin now envs).2.ocrCalls ≤ (fetch_itp vin now envs).2.captchaGets
    ∧ (fetch_itp vin now envs).2.captchaGets ≤ (fetch_itp vin now envs).2.landingGets
    ∧ (fetch_itp vin now envs).2.landingGets ≤ 3 :=
  ⟨(fetch_itp_bounds vin now envs).1, (fetch_itp_bounds vin now envs).2.1,
    (fetch_itp_bounds vin now envs).2.2.1⟩

/-! ## Terminal-failure claims -/

/-- An attempt environment in which the CAPTCHA image is served but the
solver raises `OCRAPIError` (any failure kind). -/
def ocrFailEnv : AttemptEnv → Bool
  | .img ocr _ =>
    match solve_captcha_with_ocrspace ocr with
    | .error _ => true
    | .ok _ => false
  | _ => false

/-- A failing-solver iteration always ends in a retry whose last-attempt
message is the fixed CAPTCHA string, with one landing GET, one image GET and
one OCR call. -/
theorem stepAttempt_of_ocrFail (vin now : String) (env : AttemptEnv)
    (h : ocrFailEnv env = true) :
    stepAttempt vin now env =
      (.retry "Failed to solve CAPTCHA after 3 attempts", ⟨1, 1, 1, 0⟩) := by
  cases env with
  | landingTimeout => simp [ocrFailEnv] at h
  | noCaptcha => simp [ocrFailEnv] at h
  | imgTimeout => simp [ocrFailEnv] at h
  | img ocr post =>
    rcases hS : solve_captcha_with_ocrspace ocr with e | t
    · simp [stepAttempt, hS]
    · simp [ocrFailEnv, hS] at h

/-- With every attempt failing in the solver, `fetch_itp` raises exactly the
fixed aggregate message after its 3 attempts. -/
theorem fetch_itp_of_ocrFail (vin now : String) (envs : Nat → AttemptEnv)
    (h : ∀ i, ocrFailEnv (envs i) = true) :
    fetch_itp vin now envs =
      (.error "Failed to solve CAPTCHA after 3 attempts", ⟨3, 3, 3, 0⟩) := by
  unfold fetch_itp
  rw [stepAttempt_of_ocrFail vin now (envs 0) (h 0),
    stepAttempt_of_ocrFail vin now (envs 1) (h 1),
    stepAttempt_of_ocrFail vin now (envs 2) (h 2)]
  rfl

/-- C4 (amended): if every CAPTCHA solve fails across all attempts of all
caller-side retries, the lookup surfaces exactly one terminal failure — the
fixed message "Failed to solve CAPTCHA after 3 attempts", which names the
failed CAPTCHA stage but not the concrete last cause — and never returns a
record. -/
theorem C4_terminal_failure (vin now : String) (worlds : Nat → Nat → AttemptEnv)
    (h : ∀ i j, ocrFailEnv (worlds i j) = true) :
    (async_update_data vin now worlds).1
      = .error "Failed to solve CAPTCHA after 3 attempts"
    ∧ ∀ rec : ItpRecord, (async_update_data vin now worlds).1 ≠ .ok rec := by
  have hmain : (async_update_data vin now worlds).1
      = .error "Failed to solve CAPTCHA after 3 attempts" := by
    unfold async_update_data
    rw [fetch_itp_of_ocrFail vin now (worlds 0) (h 0),
      fetch_itp_of_ocrFail vin now (worlds 1) (h 1),
      fetch_itp_of_ocrFail vin now (worlds 2) (h 2)]
  exact ⟨hmain, fun rec hrec => by rw [hmain] at hrec; exact Except.noConfusion hrec⟩

/-- Witness for C4 (amended) at the all-failures world where OCR always reads
`"99x99"`. -/
theorem C4_witness :
    (async_update_data "WAUZZZ8K79A000000" "2026-01-01 00:00:00"
        (fun _ _ => .img (.parsed "99x99") .timeout)).1
      = .error "Failed to solve CAPTCHA after 3 attempts" :=
  (C4_terminal_failure "WAUZZZ8K79A000000" "2026-01-01 00:00:00"
    (fun _ _ => .img (.parsed "99x99") .timeout) (fun _ _ => rfl)).1

/-- C4 counterexample: the surfaced terminal message is the fixed string
"Failed to solve CAPTCHA after 3 attempts"; it does not carry or cite the
last concrete cause — neither the `OCRAPIError` text "Invalid CAPTCHA format"
raised for `"12a45"` nor even the word "invalid" occurs in it — refuting the
claim that the aggregated failure cites the CAPTCHA invalid-format cause. -/
theorem C4_counterexample :
    (async_update_data "WAUZZZ8K79A000000" "2026-01-01 00:00:00"
        (fun _ _ => .img (.parsed "12a45") (.ok []))).1
      = .error "Failed to solve CAPTCHA after 3 attempts"
    ∧ ocrInner (.parsed "12a45") = .error "Invalid CAPTCHA format"
    ∧ containsList "Failed to solve CAPTCHA after 3 attempts".toList
        "Invalid CAPTCHA format".toList = false
    ∧ containsList (pyLower "Failed to solve CAPTCHA after 3 attempts".toList)
        "invalid".toList = false := by
  decide

/-! ## Solver claims -/

/-- The inner solver body only succeeds on stripped text that passes the
4-6-digit validation. -/
theorem ocrInner_ok_matches (r : OcrResp) (u : Str)
    (h : ocrInner r = .ok u) : re_match_d46 u = true := by
  cases r with
  | netFail => simp [ocrInner] at h
  | nonJson => simp [ocrInner] at h
  | httpError m => simp [ocrInner] at h
  | parsed s =>
    simp only [ocrInner] at h
    by_cases hg : (!(pyStrip s.toList).isEmpty && re_match_d46 (pyStrip s.toList)) = true
    · rw [if_pos hg] at h
      rw [Bool.and_eq_true] at hg
      cases h
      exact hg.2
    · rw [if_neg hg] at h
      exact Except.noConfusion h

/-- Every text the hosted solver returns as a success passes the
4-6-digit validation. -/
theorem solve_ok_matches (r : OcrResp) (t : Str)
    (h : solve_captcha_with_ocrspace r = .ok t) : re_match_d46 t = true := by
  unfold solve_captcha_with_ocrspace at h
  cases hI : ocrInner r with
  | error m =>
    rw [hI] at h
    exact Except.noConfusion h
  | ok u =>
    rw [hI] at h
    have hm := ocrInner_ok_matches r u hI
    injection h with h2
    rwa [h2] at hm

/-- A string passing the 4-6-digit validation is non-empty. -/
theorem re_match_d46_not_empty (s : Str) (h : re_match_d46 s = true) :
    s.isEmpty = false := by
  cases s with
  | nil => simp [re_match_d46] at h
  | cons c t => rfl

/-- C3 (amended): the hosted OCR solver (`solve_captcha_with_ocrspace`)
validates: every success matches `^\d{4,6}$`, and parsed text whose stripped
form does not match yields the InvalidFormat typed failure.  The claim as
stated fails for the interchangeable local backend — see the
counterexample. -/
theorem C3_hosted_validation (s : String) (r : OcrResp) (t : Str)
    (h : solve_captcha_with_ocrspace r = .ok t) :
    re_match_d46 t = true
    ∧ (re_match_d46 (pyStrip s.toList) = false →
        solve_captcha_with_ocrspace (.parsed s) =
          .error ⟨"OCR processing failed", some "Invalid CAPTCHA format"⟩) := by
  refine ⟨solve_ok_matches r t h, fun hm => ?_⟩
  have hg : (!(pyStrip s.toList).isEmpty && re_match_d46 (pyStrip s.toList)) = false := by
    rw [hm, Bool.and_false]
  simp only [solve_captcha_with_ocrspace, ocrInner, hg]
  rfl

/-- Witness for C3 (amended): `" 123456 "` strips and validates to a success;
`"12a45"` fails validation and yields the InvalidFormat failure. -/
theorem C3_witness :
    re_match_d46 "123456".toList = true
    ∧ (re_match_d46 (pyStrip "12a45".toList) = false →
        solve_captcha_with_ocrspace (.parsed "12a45") =
          .error ⟨"OCR processing failed", some "Invalid CAPTCHA format"⟩) :=
  C3_hosted_validation "12a45" (.parsed " 123456 ") "123456".toList (by decide)

/-- C3 counterexample: the local recognition backend (`solve_captcha_image`)
returns the engine's stripped output as a success with no shape validation
and no failure channel: a 3-character read `"123"` does not match
`^\d{4,6}$` yet is returned, never an InvalidFormat failure — refuting the
claim for "every interchangeable solver backend". -/
theorem C3_counterexample :
    solve_captcha_image "123" = "123".toList
    ∧ re_match_d46 (solve_captcha_image "123") = false := by
  decide

/-! ## Record-shape claims -/

/-- The parser only ever emits the two status strings of the source. -/
theorem parseResult_status (vin now : String) (nodes : List String) :
    (parseResult vin now nodes).status = "Valid"
    ∨ (parseResult vin now nodes).status = "Not Found" := by
  unfold parseResult
  split
  · exact Or.inr rfl
  · exact Or.inl rfl

/-- A loop iteration that exits with a record got it from `parseResult`. -/
theorem stepAttempt_done_ok_status (vin now : String) (env : AttemptEnv)
    (r : ItpRecord) (c : Counts)
    (h : stepAttempt vin now env = (.done (.ok r), c)) :
    r.status = "Valid" ∨ r.status = "Not Found" := by
  cases env with
  | landingTimeout => simp [stepAttempt] at h
  | noCaptcha => simp [stepAttempt] at h
  | imgTimeout => simp [stepAttempt] at h
  | img ocr post =>
    rcases hS : solve_captcha_with_ocrspace ocr with e | t
    · simp [stepAttempt, hS] at h
    · cases post with
      | timeout => simp [stepAttempt, hS] at h
      | ok nodes =>
        simp only [stepAttempt, hS] at h
        split at h
        · simp at h
        · simp only [Prod.mk.injEq, AttemptRes.done.injEq, Except.ok.injEq] at h
          rw [← h.1]
          exact parseResult_status vin now nodes

/-- A `fetch_itp` call that returns a record got it from some iteration's
`parseResult`. -/
theorem fetch_itp_ok_status (vin now : String) (envs : Nat → AttemptEnv)
    (r : ItpRecord) (c : Counts)
    (h : fetch_itp vin now envs = (.ok r, c)) :
    r.status = "Valid" ∨ r.status = "Not Found" := by
  unfold fetch_itp at h
  rcases h0 : stepAttempt vin now (envs 0) with ⟨r0, c0⟩
  rw [h0] at h
  cases r0 with
  | done rr =>
    simp only [Prod.mk.injEq] at h
    exact stepAttempt_done_ok_status vin now (envs 0) r c0 (by rw [h0, h.1])
  | retry e0 =>
    rcases h1 : stepAttempt vin now (envs 1) with ⟨r1, c1⟩
    rw [h1] at h
    cases r1 with
    | done rr =>
      simp only [Prod.mk.injEq] at h
      exact stepAttempt_done_ok_status vin now (envs 1) r c1 (by rw [h1, h.1])
    | retry e1 =>
      rcases h2 : stepAttempt vin now (envs 2) with ⟨r2, c2⟩
      rw [h2] at h
      cases r2 with
      | done rr =>
        simp only [Prod.mk.injEq] at h
        exact stepAttempt_done_ok_status vin now (envs 2) r c2 (by rw [h2, h.1])
      | retry e2 => simp at h

/-- Any record surfacing from the caller-side wrapper came from one of its
`fetch_itp` calls. -/
theorem async_ok_status (vin now : String) (worlds : Nat → Nat → AttemptEnv)
    (r : ItpRecord)
    (h : (async_update_data vin now worlds).1 = .ok r) :
    r.status = "Valid" ∨ r.status = "Not Found" := by
  unfold async_update_data at h
  rcases h0 : fetch_itp vin now (worlds 0) with ⟨r0, c0⟩
  rw [h0] at h
  cases r0 with
  | ok rr =>
    simp only at h
    exact fetch_itp_ok_status vin now (worlds 0) r c0 (by rw [h0, h])
  | error e0 =>
    rcases h1 : fetch_itp vin now (worlds 1) with ⟨r1, c1⟩
    rw [h1] at h
    cases r1 with
    | ok rr =>
      simp only at h
      exact fetch_itp_ok_status vin now (worlds 1) r c1 (by rw [h1, h])
    | error e1 =>
      rcases h2 : fetch_itp vin now (worlds 2) with ⟨r2, c2⟩
      rw [h2] at h
      cases r2 with
      | ok rr =>
        simp only at h
        exact fetch_itp_ok_status vin now (worlds 2) r c2 (by rw [h2, h])
      | error e2 => simp at h

/-- C9: every record a successful lookup returns carries the four fields of
`ItpRecord` with `status` one of the two strings `"Valid"` / `"Not Found"`;
the absent-date sentinel is the literal `"Unknown"`; and the days-until
computation maps the sentinel, the empty string and any string rejected by
the `%Y-%m-%d` parse to `none` (the embedding is total — nothing raises). -/
theorem C9_record_invariants (vin now : String) (worlds : Nat → Nat → AttemptEnv)
    (rec : ItpRecord) (s : String) (today : Int) :
    ((async_update_data vin now worlds).1 = .ok rec →
      (rec.status = "Valid" ∨ rec.status = "Not Found"))
    ∧ calculate_days_until "Unknown" today = none
    ∧ calculate_days_until "" today = none
    ∧ (parseYmd s = none → calculate_days_until s today = none) := by
  refine ⟨fun h => async_ok_status vin now worlds rec h, rfl, rfl, fun h => ?_⟩
  unfold calculate_days_until
  rw [h]
  exact ite_self none

/-- Witness for C9: a lookup returning a no-record result, the sentinel and
empty dates, and the malformed date `"0000-01-01"` (year below
`datetime.MINYEAR`, which `strptime` rejects). -/
theorem C9_witness :
    ((⟨"WAUZZZ8K79A000000", "Not Found", "Unknown", "t"⟩ : ItpRecord).status = "Valid"
      ∨ (⟨"WAUZZZ8K79A000000", "Not Found", "Unknown", "t"⟩ : ItpRecord).status = "Not Found")
    ∧ calculate_days_until "Unknown" 739251 = none
    ∧ calculate_days_until "" 739251 = none
    ∧ calculate_days_until "0000-01-01" 739251 = none := by
  have h := C9_record_invariants "WAUZZZ8K79A000000" "t"
    (fun _ _ => .img (.parsed "1234") (.ok ["Nu a fost găsită nicio înregistrare"]))
    ⟨"WAUZZZ8K79A000000", "Not Found", "Unknown", "t"⟩ "0000-01-01" 739251
  exact ⟨h.1 (by decide), h.2.1, h.2.2.1, h.2.2.2 (by decide)⟩

/-! ## Sanitization claims -/

/-- Filtering to digits leaves an all-digit string unchanged. -/
theorem sanitizeDigits_of_digits (t : Str) (h : t.all Char.isDigit = true) :
    sanitizeDigits t = t := by
  unfold sanitizeDigits
  exact List.filter_eq_self.mpr (List.all_eq_true.mp h)

/-- C10: the digit sanitization applied to the solved code before submission
is idempotent, and on every success the validating hosted solver can return
(4-6 digits) it is the identity, so the submitted `verif_cod` form field
equals the solver's output exactly. -/
theorem C10_sanitize_code (s : Str) (vin : String) (r : OcrResp) (t : Str)
    (h : solve_captcha_with_ocrspace r = .ok t) :
    sanitizeDigits (sanitizeDigits s) = sanitizeDigits s
    ∧ formField (form_data vin t) "verif_cod" = some (String.mk t) := by
  constructor
  · unfold sanitizeDigits
    rw [List.filter_filter]
    simp
  · have hall : t.all Char.isDigit = true := by
      have hm := solve_ok_matches r t h
      unfold re_match_d46 at hm
      rw [Bool.and_eq_true, Bool.and_eq_true] at hm
      exact hm.2
    simp [formField, form_data, List.find?, sanitizeDigits_of_digits t hall]

/-- Witness for C10: the solver success `"1234"` is submitted verbatim, and
sanitization of the noisy `"a1b2"` is idempotent. -/
theorem C10_witness :
    sanitizeDigits (sanitizeDigits "a1b2".toList) = sanitizeDigits "a1b2".toList
    ∧ formField (form_data "WAUZZZ8K79A000000" "1234".toList) "verif_cod"
        = some (String.mk "1234".toList) :=
  C10_sanitize_code "a1b2".toList "WAUZZZ8K79A000000" (.parsed "1234")
    "1234".toList (by decide)
